import Mathlib

/-!
Verification of `src/libchemfiles/sizeof.cpp` from chemfiles/chemfiles.js.

The program probes a fixed list of native types, computes `sizeof` for each,
and prints one javascript constant declaration per type to standard output.
We embed it shallowly: the build's `sizeof` values are a parameter (a record
with one field per probed type), standard output is a string accumulated in an
explicit process state, and `main` is a pure function from the sizeof record
and an initial stream state to a final state and exit code.
-/

namespace SizeofGen

/-- The lambda passed to std::transform in print_size: `std::toupper` in the C
locale maps a lowercase ASCII letter (code points 97 to 122) to the
corresponding uppercase letter (code point minus 32) and leaves every other
character unchanged. -/
def cppToupper (c : Char) : Char :=
  if 97 ≤ c.toNat ∧ c.toNat ≤ 122 then Char.ofNat (c.toNat - 32) else c

/-- The std::transform call in print_size: apply cppToupper to every character
of the name, in place. -/
def transformToupper (s : String) : String :=
  ⟨s.data.map cppToupper⟩

/-- Process state visible to the generator: the bytes written so far to
standard output, and whether the stream is still good. A write to a failed
stream is swallowed; the generator never reads or resets this flag. -/
structure ProcState where
  stdout : String
  good : Bool
  deriving Repr, DecidableEq

/-- One `std::cout << ...` chain: append the text when the stream is good,
drop it otherwise. -/
def streamWrite (st : ProcState) (s : String) : ProcState :=
  if st.good then { st with stdout := st.stdout ++ s } else st

/-- `void print_size(std::string name, size_t size)`: uppercase the name in
place, then stream `export const <NAME> = <size>;` and a newline. -/
def print_size (name : String) (size : Nat) (st : ProcState) : ProcState :=
  streamWrite st ("export const " ++ transformToupper name ++ " = " ++ Nat.repr size ++ ";\n")

/-- `#define PRINT_SIZE(type) print_size("SIZEOF_" #type, sizeof (type))`:
the stringified type spelling is concatenated to the literal prefix. -/
def PRINT_SIZE (typeSpelling : String) (size : Nat) (st : ProcState) : ProcState :=
  print_size ("SIZEOF_" ++ typeSpelling) size st

/-- The build's `sizeof` values, one field per probed type. These are
compile-time constants of the C++ build, so they are a parameter of the
embedding, not values the program computes. -/
structure Sizeof where
  void_p : Nat
  double : Nat
  bool : Nat
  uint64_t : Nat
  chfl_vector3d : Nat
  chfl_property_kind : Nat
  chfl_cellshape : Nat
  chfl_bond_order : Nat
  deriving Repr, DecidableEq

/-- The body of `int main()`: eight probes in source order, then `return 0`,
starting from an arbitrary initial stream state. -/
def mainFrom (st0 : ProcState) (sz : Sizeof) : ProcState × Int :=
  let st := print_size "SIZEOF_VOID_P" sz.void_p st0
  let st := PRINT_SIZE "double" sz.double st
  let st := PRINT_SIZE "bool" sz.bool st
  let st := PRINT_SIZE "uint64_t" sz.uint64_t st
  let st := PRINT_SIZE "chfl_vector3d" sz.chfl_vector3d st
  let st := PRINT_SIZE "chfl_property_kind" sz.chfl_property_kind st
  let st := PRINT_SIZE "chfl_cellshape" sz.chfl_cellshape st
  let st := PRINT_SIZE "chfl_bond_order" sz.chfl_bond_order st
  (st, 0)

/-- The process starts with an empty, good standard output stream. -/
def initState : ProcState := ⟨"", true⟩

/-- A full run of the generator on a given build. -/
def main (sz : Sizeof) : ProcState × Int := mainFrom initState sz

/-- Everything a run writes to standard output. -/
def outputOf (sz : Sizeof) : String := (main sz).1.stdout

/-- The (constant name, size) pairs of the eight declarations, in emission
order, with the names as they appear in the output. -/
def decls (sz : Sizeof) : List (String × Nat) :=
  [("SIZEOF_VOID_P", sz.void_p),
   ("SIZEOF_DOUBLE", sz.double),
   ("SIZEOF_BOOL", sz.bool),
   ("SIZEOF_UINT64_T", sz.uint64_t),
   ("SIZEOF_CHFL_VECTOR3D", sz.chfl_vector3d),
   ("SIZEOF_CHFL_PROPERTY_KIND", sz.chfl_property_kind),
   ("SIZEOF_CHFL_CELLSHAPE", sz.chfl_cellshape),
   ("SIZEOF_CHFL_BOND_ORDER", sz.chfl_bond_order)]

/-- Render one declaration the way the spec describes a line. -/
def declLine (p : String × Nat) : String :=
  "export const " ++ p.1 ++ " = " ++ Nat.repr p.2 ++ ";\n"

/-- Uppercasing as the spec words it: every character uppercased, using the
library's character uppercase map. -/
def upperSpec (s : String) : String :=
  ⟨s.data.map Char.toUpper⟩

/-- The sanitized type spellings of the eight probed types, in probe order;
`void*` is spelled `void_p`, with an underscore for the character that is
illegal in an identifier. -/
def probedSpellings : List String :=
  ["void_p", "double", "bool", "uint64_t", "chfl_vector3d",
   "chfl_property_kind", "chfl_cellshape", "chfl_bond_order"]

/-- A typical 64-bit build: 8-byte pointers, doubles and uint64_t, 1-byte
bool, a 3-double vector, and 4-byte enums. -/
def typical64 : Sizeof := ⟨8, 8, 1, 8, 24, 4, 4, 4⟩

theorem cppToupper_eq_toUpper (c : Char) : cppToupper c = c.toUpper := by
  simp [cppToupper, Char.toUpper, ge_iff_le]

theorem transformToupper_eq_upperSpec (s : String) : transformToupper s = upperSpec s := by
  simp only [transformToupper, upperSpec]
  exact congrArg String.mk (List.map_congr_left fun c _ => cppToupper_eq_toUpper c)

theorem outputOf_eq_join (sz : Sizeof) :
    outputOf sz = String.join ((decls sz).map declLine) := by
  rfl

theorem cppToupper_idem (c : Char) : cppToupper (cppToupper c) = cppToupper c := by
  by_cases h : 97 ≤ c.toNat ∧ c.toNat ≤ 122
  · have h1 : cppToupper c = Char.ofNat (c.toNat - 32) := by simp [cppToupper, h]
    rw [h1]
    have h65 : 65 ≤ c.toNat - 32 := by omega
    have h90 : c.toNat - 32 ≤ 90 := by omega
    clear h1 h
    generalize c.toNat - 32 = m at h65 h90 ⊢
    interval_cases m <;> decide
  · simp [cppToupper, h]

theorem transformToupper_idem (s : String) :
    transformToupper (transformToupper s) = transformToupper s := by
  dsimp only [transformToupper]
  refine congrArg String.mk ?_
  rw [List.map_map]
  exact List.map_congr_left fun c _ => cppToupper_idem c

set_option maxRecDepth 4000 in
/-- C1: for every build (every assignment of sizeof values), the decimal
number in each type's output line is exactly that type's sizeof value on the
build — the sizes in the output are the record's fields, never literals. -/
theorem claim_C1 (sz : Sizeof) : outputOf sz =
    "export const SIZEOF_VOID_P = " ++ Nat.repr sz.void_p ++ ";\n" ++
    "export const SIZEOF_DOUBLE = " ++ Nat.repr sz.double ++ ";\n" ++
    "export const SIZEOF_BOOL = " ++ Nat.repr sz.bool ++ ";\n" ++
    "export const SIZEOF_UINT64_T = " ++ Nat.repr sz.uint64_t ++ ";\n" ++
    "export const SIZEOF_CHFL_VECTOR3D = " ++ Nat.repr sz.chfl_vector3d ++ ";\n" ++
    "export const SIZEOF_CHFL_PROPERTY_KIND = " ++ Nat.repr sz.chfl_property_kind ++ ";\n" ++
    "export const SIZEOF_CHFL_CELLSHAPE = " ++ Nat.repr sz.chfl_cellshape ++ ";\n" ++
    "export const SIZEOF_CHFL_BOND_ORDER = " ++ Nat.repr sz.chfl_bond_order ++ ";\n" := by
  rw [outputOf_eq_join]
  simp only [decls, declLine, List.map, String.join, List.foldl, String.append_assoc]
  rfl

/-- C2: on a good stream, print_size appends exactly the line
`export const <NAME> = <size>;` plus a newline, where `<NAME>` is the input
name with every character uppercased and `<size>` is the decimal byte
count; nothing else about the state changes. -/
theorem claim_C2 (name : String) (size : Nat) (st : ProcState) (h : st.good = true) :
    print_size name size st =
      { stdout := st.stdout ++ ("export const " ++ upperSpec name ++ " = " ++ Nat.repr size ++ ";\n"),
        good := st.good } := by
  simp [print_size, streamWrite, h, transformToupper_eq_upperSpec]

theorem claim_C2_witness : initState.good = true ∧
    print_size "SIZEOF_double" 13 initState =
      { stdout := initState.stdout ++ ("export const " ++ upperSpec "SIZEOF_double" ++ " = " ++ Nat.repr 13 ++ ";\n"),
        good := initState.good } :=
  ⟨rfl, claim_C2 "SIZEOF_double" 13 initState rfl⟩

/-- C3: each emitted constant name equals the uppercase transform of
`SIZEOF_` prefixed to the probed type's sanitized spelling, uppercasing
being the only change. -/
theorem claim_C3 (sz : Sizeof) :
    outputOf sz = String.join ((decls sz).map declLine) ∧
    (decls sz).map Prod.fst = probedSpellings.map (fun t => upperSpec ("SIZEOF_" ++ t)) := by
  exact ⟨outputOf_eq_join sz, rfl⟩

/-- C4: every run emits exactly eight declarations, in the fixed order
SIZEOF_VOID_P, SIZEOF_DOUBLE, SIZEOF_BOOL, SIZEOF_UINT64_T,
SIZEOF_CHFL_VECTOR3D, SIZEOF_CHFL_PROPERTY_KIND, SIZEOF_CHFL_CELLSHAPE,
SIZEOF_CHFL_BOND_ORDER. -/
theorem claim_C4 (sz : Sizeof) :
    outputOf sz = String.join ((decls sz).map declLine) ∧
    (decls sz).length = 8 ∧
    (decls sz).map Prod.fst =
      ["SIZEOF_VOID_P", "SIZEOF_DOUBLE", "SIZEOF_BOOL", "SIZEOF_UINT64_T",
       "SIZEOF_CHFL_VECTOR3D", "SIZEOF_CHFL_PROPERTY_KIND",
       "SIZEOF_CHFL_CELLSHAPE", "SIZEOF_CHFL_BOND_ORDER"] := by
  exact ⟨outputOf_eq_join sz, rfl, rfl⟩

/-- C5: the generator is deterministic — two runs on the same build (the same
sizeof record) produce identical final states and exit codes; the run is a
function of the sizeof record alone. -/
theorem claim_C5 (sz1 sz2 : Sizeof) (h : sz1 = sz2) : main sz1 = main sz2 :=
  congrArg main h

theorem claim_C5_witness : typical64 = typical64 ∧ main typical64 = main typical64 :=
  ⟨rfl, claim_C5 typical64 typical64 rfl⟩

/-- C6: the eight uppercased prefixed constant names emitted in one run are
pairwise distinct. -/
theorem claim_C6 (sz : Sizeof) :
    outputOf sz = String.join ((decls sz).map declLine) ∧
    ((decls sz).map Prod.fst).Nodup := by
  refine ⟨outputOf_eq_join sz, ?_⟩
  have h : (decls sz).map Prod.fst =
      ["SIZEOF_VOID_P", "SIZEOF_DOUBLE", "SIZEOF_BOOL", "SIZEOF_UINT64_T",
       "SIZEOF_CHFL_VECTOR3D", "SIZEOF_CHFL_PROPERTY_KIND",
       "SIZEOF_CHFL_CELLSHAPE", "SIZEOF_CHFL_BOND_ORDER"] := rfl
  rw [h]
  decide

set_option maxRecDepth 4000 in
/-- C7: on a typical 64-bit build (sizeof double = 8, sizeof bool = 1,
sizeof uint64_t = 8), the output contains the lines
`export const SIZEOF_DOUBLE = 8;`, `export const SIZEOF_BOOL = 1;` and
`export const SIZEOF_UINT64_T = 8;`, in that relative order. -/
theorem claim_C7 (sz : Sizeof) (h1 : sz.double = 8) (h2 : sz.bool = 1)
    (h3 : sz.uint64_t = 8) :
    ∃ s1 s2 s3 s4 : String, outputOf sz =
      s1 ++ "export const SIZEOF_DOUBLE = 8;\n" ++
      s2 ++ "export const SIZEOF_BOOL = 1;\n" ++
      s3 ++ "export const SIZEOF_UINT64_T = 8;\n" ++ s4 := by
  obtain ⟨v, d, b, u, x5, x6, x7, x8⟩ := sz
  change d = 8 at h1
  change b = 1 at h2
  change u = 8 at h3
  subst h1
  subst h2
  subst h3
  refine ⟨"export const SIZEOF_VOID_P = " ++ Nat.repr v ++ ";\n", "", "",
    "export const SIZEOF_CHFL_VECTOR3D = " ++ Nat.repr x5 ++ ";\n" ++
    "export const SIZEOF_CHFL_PROPERTY_KIND = " ++ Nat.repr x6 ++ ";\n" ++
    "export const SIZEOF_CHFL_CELLSHAPE = " ++ Nat.repr x7 ++ ";\n" ++
    "export const SIZEOF_CHFL_BOND_ORDER = " ++ Nat.repr x8 ++ ";\n", ?_⟩
  rw [outputOf_eq_join]
  simp only [decls, declLine, List.map, String.join, List.foldl, String.append_assoc]
  rfl

theorem claim_C7_witness : typical64.double = 8 ∧ typical64.bool = 1 ∧
    typical64.uint64_t = 8 ∧
    ∃ s1 s2 s3 s4 : String, outputOf typical64 =
      s1 ++ "export const SIZEOF_DOUBLE = 8;\n" ++
      s2 ++ "export const SIZEOF_BOOL = 1;\n" ++
      s3 ++ "export const SIZEOF_UINT64_T = 8;\n" ++ s4 :=
  ⟨rfl, rfl, rfl, claim_C7 typical64 rfl rfl rfl⟩

/-- C8: execution has no runtime error path — from any initial stream state
the run performs the full linear probe sequence and returns exit code 0, and
a normal run writes all eight declarations. -/
theorem claim_C8 (sz : Sizeof) (st0 : ProcState) :
    (mainFrom st0 sz).2 = 0 ∧
    (main sz).1.stdout = String.join ((decls sz).map declLine) :=
  ⟨rfl, outputOf_eq_join sz⟩

/-- C9: the exit status is 0 unconditionally — main never inspects the
stream state, so even a run in which every write to standard output fails
(and nothing is written) still exits with 0. -/
theorem claim_C9 (sz : Sizeof) (st0 : ProcState) :
    (mainFrom st0 sz).2 = 0 ∧
    (mainFrom ⟨"", false⟩ sz).1 = ⟨"", false⟩ :=
  ⟨rfl, rfl⟩

/-- C10: the name transform of print_size is idempotent — it fixes the
already-uppercase name SIZEOF_VOID_P passed at the first call site, and
applying it twice to any string equals applying it once. -/
theorem claim_C10 : transformToupper "SIZEOF_VOID_P" = "SIZEOF_VOID_P" ∧
    ∀ s : String, transformToupper (transformToupper s) = transformToupper s :=
  ⟨rfl, transformToupper_idem⟩

end SizeofGen
